import Mathlib

/-!
Formal model of the OCR preprocessing and extraction pipeline of
`src/ocr_utils.py` (class `OCRProcessor`), together with the configuration
value it reads from `src/config.py`.  External collaborators (OpenCV, PIL,
pytesseract, easyocr, PyPDF2, pdf2image) are modelled as explicit
environments whose pixel-level behaviour is abstract; the control flow,
thresholds, angle arithmetic and string handling of the repository code
are modelled faithfully.  Python strings are lists of characters,
fallible Python calls return `Except`.
-/

namespace OCRModel

/-- Python strings, modelled as lists of characters. -/
abbrev Str := List Char

/-- The whitespace characters removed by the Python `str.strip` method. -/
def isspace (c : Char) : Bool :=
  c = ' ' || c = '\t' || c = '\n' || c = '\r' || c = '\x0b' || c = '\x0c'

/-- Python `str.strip`: remove leading and trailing whitespace. -/
def pyStrip (s : Str) : Str :=
  ((s.dropWhile isspace).reverse.dropWhile isspace).reverse

/-- Python `str.lower`, as used on ASCII filenames. -/
def pyLower (s : Str) : Str := s.map Char.toLower

/-- Python `" ".join`: join a list of strings with single spaces. -/
def spaceJoin (xs : List Str) : Str := List.intercalate [' '] xs

/-- The newline separator appended after each page text. -/
def nl : Str := ['\n']

/-- A raster image: a pixel grid with explicit dimensions.  `fromPIL`
records whether the value is a PIL image object; `preprocess_image`
converts those to BGR arrays on entry (the conversion keeps the grid
dimensions). -/
structure Img where
  height : Nat
  width : Nat
  pix : Nat → Nat → Nat
  fromPIL : Bool := false

/-- The cv2 interpolation flags relevant to the code. -/
inductive Interp
  | nearest
  | linear
  | cubic
  deriving DecidableEq

/-- The cv2 border modes relevant to the code. -/
inductive Border
  | constant
  | replicate
  | reflect
  deriving DecidableEq

/-- The cv2 adaptive-threshold neighbourhood weighting methods. -/
inductive AdaptiveMethod
  | meanC
  | gaussianC
  deriving DecidableEq

/-- The cv2 threshold types relevant to the code. -/
inductive ThreshType
  | binary
  | binaryInv
  deriving DecidableEq

/-- A 2x3 affine matrix, as returned by `cv2.getRotationMatrix2D`. -/
structure RotMat where
  entries : Fin 2 → Fin 3 → ℚ

/-- Abstract pixel-level semantics of the OpenCV primitives used by the
code.  Shape behaviour (the filters keep the input size; `warpAffine`
produces exactly the requested `dsize`) is part of the documented cv2
contract and is built into the wrappers below; pixel values and the
minimum-area-rectangle angle are arbitrary. -/
structure CV where
  cvtColorRGB2BGRPix : Img → Nat → Nat → Nat
  cvtColorBGR2GRAYPix : Img → Nat → Nat → Nat
  gaussianBlurPix : Img → Nat × Nat → Nat → Nat → Nat → Nat
  adaptiveThresholdPix :
    Img → Nat → AdaptiveMethod → ThreshType → Nat → ℚ → Nat → Nat → Nat
  medianBlurPix : Img → Nat → Nat → Nat → Nat
  minAreaRectAngle : List (Nat × Nat) → ℚ
  getRotationMatrix2D : Nat × Nat → ℚ → ℚ → RotMat
  warpAffinePix : Img → RotMat → Nat × Nat → Interp → Border → Nat → Nat → Nat

/-- `cv2.cvtColor(..., cv2.COLOR_RGB2BGR)` on the array of a PIL image. -/
def CV.cvtColorRGB2BGR (cv : CV) (src : Img) : Img :=
  { height := src.height, width := src.width, pix := cv.cvtColorRGB2BGRPix src }

/-- `cv2.cvtColor(..., cv2.COLOR_BGR2GRAY)`. -/
def CV.cvtColorBGR2GRAY (cv : CV) (src : Img) : Img :=
  { height := src.height, width := src.width, pix := cv.cvtColorBGR2GRAYPix src }

/-- `cv2.GaussianBlur`. -/
def CV.gaussianBlur (cv : CV) (src : Img) (ksize : Nat × Nat) (sigmaX : Nat) : Img :=
  { height := src.height, width := src.width, pix := cv.gaussianBlurPix src ksize sigmaX }

/-- `cv2.adaptiveThreshold`. -/
def CV.adaptiveThreshold (cv : CV) (src : Img) (maxValue : Nat)
    (method : AdaptiveMethod) (ttype : ThreshType) (blockSize : Nat) (c : ℚ) : Img :=
  { height := src.height, width := src.width,
    pix := cv.adaptiveThresholdPix src maxValue method ttype blockSize c }

/-- `cv2.medianBlur`. -/
def CV.medianBlur (cv : CV) (src : Img) (ksize : Nat) : Img :=
  { height := src.height, width := src.width, pix := cv.medianBlurPix src ksize }

/-- `cv2.warpAffine`: the output image has exactly the requested
`dsize = (width, height)`. -/
def CV.warpAffine (cv : CV) (src : Img) (m : RotMat) (dsize : Nat × Nat)
    (flags : Interp) (borderMode : Border) : Img :=
  { height := dsize.2, width := dsize.1,
    pix := cv.warpAffinePix src m dsize flags borderMode }

/-- `np.column_stack(np.where(image > 0))`: the (row, column) coordinates
of all strictly positive pixels, in row-major order. -/
def foreground (img : Img) : List (Nat × Nat) :=
  (List.range img.height).flatMap fun y =>
    (List.range img.width).filterMap fun x =>
      if 0 < img.pix y x then some (y, x) else none

/-- The angle normalisation inside `OCRProcessor._deskew_image`
(src/ocr_utils.py lines 55-60): the raw `cv2.minAreaRect` angle of the
foreground coordinates, mapped to the effective rotation angle. -/
def deskewAngle (cv : CV) (coords : List (Nat × Nat)) : ℚ :=
  let angle := cv.minAreaRectAngle coords
  if angle < -45 then -(90 + angle) else -angle

/-- `OCRProcessor._deskew_image` (src/ocr_utils.py lines 49-69). -/
def _deskew_image (cv : CV) (image : Img) : Img :=
  let coords := foreground image
  if coords.length = 0 then image
  else
    let angle := deskewAngle cv coords
    if 0.5 < |angle| then
      let h := image.height
      let w := image.width
      let center := (w / 2, h / 2)
      let m := cv.getRotationMatrix2D center angle 1
      cv.warpAffine image m (w, h) Interp.cubic Border.replicate
    else image

/-- `OCRProcessor.preprocess_image` (src/ocr_utils.py lines 18-47). -/
def preprocess_image (cv : CV) (image0 : Img) : Img :=
  let image := if image0.fromPIL then cv.cvtColorRGB2BGR image0 else image0
  let gray := cv.cvtColorBGR2GRAY image
  let blurred := cv.gaussianBlur gray (5, 5) 0
  let thresh :=
    cv.adaptiveThreshold blurred 255 AdaptiveMethod.gaussianC ThreshType.binary 11 2
  let deskewed := _deskew_image cv thresh
  let denoised := cv.medianBlur deskewed 3
  denoised

lemma deskew_height (cv : CV) (img : Img) :
    (_deskew_image cv img).height = img.height := by
  simp only [_deskew_image]
  split
  · rfl
  · split <;> rfl

lemma deskew_width (cv : CV) (img : Img) :
    (_deskew_image cv img).width = img.width := by
  simp only [_deskew_image]
  split
  · rfl
  · split <;> rfl

/-- Claim C5: for every input image of dimensions at least 1x1, the image
returned by `preprocess_image` has exactly the pixel width and height of
the input image, including when the deskew rotation step runs. -/
theorem C5_preprocess_preserves_dimensions (cv : CV) (img : Img)
    (hw : 1 ≤ img.width) (hh : 1 ≤ img.height) :
    (preprocess_image cv img).width = img.width ∧
    (preprocess_image cv img).height = img.height := by
  constructor
  · show (_deskew_image cv _).width = img.width
    rw [deskew_width]
    show (if img.fromPIL then cv.cvtColorRGB2BGR img else img).width = img.width
    split <;> rfl
  · show (_deskew_image cv _).height = img.height
    rw [deskew_height]
    show (if img.fromPIL then cv.cvtColorRGB2BGR img else img).height = img.height
    split <;> rfl

/-- A trivial concrete OpenCV environment for witnesses. -/
def cv0 : CV :=
  { cvtColorRGB2BGRPix := fun _ _ _ => 0
    cvtColorBGR2GRAYPix := fun _ _ _ => 0
    gaussianBlurPix := fun _ _ _ _ _ => 0
    adaptiveThresholdPix := fun _ _ _ _ _ _ _ _ => 0
    medianBlurPix := fun _ _ _ _ => 0
    minAreaRectAngle := fun _ => 0
    getRotationMatrix2D := fun _ _ _ => ⟨fun _ _ => 0⟩
    warpAffinePix := fun _ _ _ _ _ _ _ => 0 }

/-- A concrete 1x1 image whose single pixel is zero (empty foreground). -/
def imgZero : Img := { height := 1, width := 1, pix := fun _ _ => 0 }

/-- A concrete 1x1 image whose single pixel is 255 (non-empty foreground). -/
def imgOne : Img := { height := 1, width := 1, pix := fun _ _ => 255 }

theorem C5_witness :
    (preprocess_image cv0 imgOne).width = imgOne.width ∧
    (preprocess_image cv0 imgOne).height = imgOne.height :=
  C5_preprocess_preserves_dimensions cv0 imgOne (by decide) (by decide)

/-- Claim C6: for every image with an empty foreground pixel set (no
pixel value above 0), the deskew step returns the image unchanged and
raises no error. -/
theorem C6_deskew_empty_foreground (cv : CV) (img : Img)
    (h : foreground img = []) : _deskew_image cv img = img := by
  simp [_deskew_image, h]

theorem C6_witness :
    foreground imgZero = [] ∧ _deskew_image cv0 imgZero = imgZero :=
  ⟨by decide, C6_deskew_empty_foreground cv0 imgZero (by decide)⟩

/-- An OpenCV environment whose minimum-area-rectangle angle is -90
(raw angle below -45, effective angle 0). -/
def cvNeg90 : CV := { cv0 with minAreaRectAngle := fun _ => -90 }

/-- An OpenCV environment whose minimum-area-rectangle angle is -10
(raw angle not below -45, effective angle 10). -/
def cvNeg10 : CV := { cv0 with minAreaRectAngle := fun _ => -10 }

/-- Claim C7: for every image with non-empty foreground, the deskew step
computes the effective angle from the raw minimum-area-rectangle angle
as -(90 + angle) when the raw angle is below -45 degrees and as the
negation of the raw angle otherwise; when the magnitude of the
effective angle is at most 0.5 degrees the image is returned unrotated,
otherwise the image is rotated about its centre by the effective angle
with cubic interpolation and replication border padding, at the
original size. -/
theorem C7_deskew_rotation (cv : CV) (img : Img) (h : foreground img ≠ []) :
    (cv.minAreaRectAngle (foreground img) < -45 →
      deskewAngle cv (foreground img) =
        -(90 + cv.minAreaRectAngle (foreground img))) ∧
    (¬cv.minAreaRectAngle (foreground img) < -45 →
      deskewAngle cv (foreground img) = -cv.minAreaRectAngle (foreground img)) ∧
    (|deskewAngle cv (foreground img)| ≤ 0.5 → _deskew_image cv img = img) ∧
    (0.5 < |deskewAngle cv (foreground img)| →
      _deskew_image cv img =
        cv.warpAffine img
          (cv.getRotationMatrix2D (img.width / 2, img.height / 2)
            (deskewAngle cv (foreground img)) 1)
          (img.width, img.height) Interp.cubic Border.replicate) := by
  have hlen : ¬(foreground img).length = 0 := by
    simpa using h
  refine ⟨fun hneg => ?_, fun hpos => ?_, fun hle => ?_, fun hgt => ?_⟩
  · simp [deskewAngle, hneg]
  · simp [deskewAngle, hpos]
  · simp [_deskew_image, hlen, not_lt.mpr hle]
  · simp [_deskew_image, hlen, hgt]

theorem C7_witness :
    (deskewAngle cvNeg90 (foreground imgOne) =
      -(90 + cvNeg90.minAreaRectAngle (foreground imgOne))) ∧
    (deskewAngle cvNeg10 (foreground imgOne) =
      -cvNeg10.minAreaRectAngle (foreground imgOne)) ∧
    (_deskew_image cvNeg90 imgOne = imgOne) ∧
    (_deskew_image cvNeg10 imgOne =
      cvNeg10.warpAffine imgOne
        (cvNeg10.getRotationMatrix2D (imgOne.width / 2, imgOne.height / 2)
          (deskewAngle cvNeg10 (foreground imgOne)) 1)
        (imgOne.width, imgOne.height) Interp.cubic Border.replicate) :=
  ⟨(C7_deskew_rotation cvNeg90 imgOne (by decide)).1 (by decide),
   (C7_deskew_rotation cvNeg10 imgOne (by decide)).2.1 (by decide),
   (C7_deskew_rotation cvNeg90 imgOne (by decide)).2.2.1
     (by norm_num [deskewAngle, cvNeg90, cv0]),
   (C7_deskew_rotation cvNeg10 imgOne (by decide)).2.2.2
     (by norm_num [deskewAngle, cvNeg10, cv0])⟩

/-- One detection returned by `easyocr.Reader.readtext`: a tuple of
region coordinates, fragment text (index 1, the component the code
keeps), and a confidence score. -/
structure Fragment where
  bbox : List (ℚ × ℚ)
  text : Str
  confidence : ℚ

/-- An `easyocr.Reader` instance: its `readtext` method. -/
structure Reader where
  readtext : Img → List Fragment

/-- The configuration read from `src/config.py`; only `OCR_ENGINE`
(line 19) is consumed by the OCR pipeline. -/
structure Config where
  OCR_ENGINE : Str

/-- `Config.OCR_ENGINE = os.getenv('OCR_ENGINE', 'tesseract')`
(src/config.py line 19). -/
def Config.ofEnv (getenv : Str → Option Str) : Config :=
  { OCR_ENGINE := (getenv ("OCR_ENGINE".toList)).getD ("tesseract".toList) }

/-- The `OCRProcessor` object: `self.config` and, when it was assigned
by `__init__`, `self.easyocr_reader`. -/
structure OCRProcessor where
  config : Config
  easyocr_reader : Option Reader

/-- `OCRProcessor.__init__` (src/ocr_utils.py lines 12-16): the easyocr
reader is constructed, with languages `['en', 'ta']`, only when the
configured engine is the exact string `easyocr`.  `mkReader` models the
`easyocr.Reader` constructor. -/
def OCRProcessor.init (config : Config) (mkReader : List Str → Reader) : OCRProcessor :=
  { config := config
    easyocr_reader :=
      if config.OCR_ENGINE = ("easyocr".toList) then
        some (mkReader [("en".toList), ("ta".toList)])
      else none }

/-- A Python file object: a name (used for extension dispatch) and a
seekable byte body (`read` followed by `seek(0)` yields `content`). -/
structure PyFile where
  name : Str
  content : List Nat

/-- The external collaborators of the pipeline: OpenCV, PIL image
decoding, PyPDF2 native text extraction, pdf2image rasterisation, and
pytesseract.  Fallible calls return `Except` with the message of the
raised exception.  `pdfPages` models the two PyPDF2 failure modes of
lines 101-106 separately: an outer `.error` is a failure of the
`PdfReader` constructor (before any page), while a `.ok` list carries
the outcome of each `page.extract_text()` call in page order, an inner
`.error` being a page whose extraction raises (ending the loop after
the pages before it were already accumulated). -/
structure Env where
  cv : CV
  imageOpen : PyFile → Except Str Img
  pdfPages : List Nat → Except Str (List (Except Str Str))
  convert_from_bytes : List Nat → Nat → Except Str (List Img)
  image_to_string : Img → Str → Str

/-- `easyocr.Reader(['en', 'ta'])` made concrete for witnesses: a reader
that detects nothing. -/
def mkReader0 : List Str → Reader := fun _ => { readtext := fun _ => [] }

/-- `OCRProcessor.extract_text_from_image` (src/ocr_utils.py lines
71-91).  `Image.open` failures are wrapped by the handler on line 90;
the easyocr branch reads `self.easyocr_reader`, which only exists when
`__init__` assigned it (otherwise Python raises an `AttributeError`
that the same handler wraps). -/
def extract_text_from_image (self : OCRProcessor) (env : Env)
    (image_file : PyFile) : Except Str Str :=
  match env.imageOpen image_file with
  | .error e => .error (("Error extracting text from image: ".toList) ++ e)
  | .ok image =>
    let processed_image := preprocess_image env.cv image
    if self.config.OCR_ENGINE = ("easyocr".toList) then
      match self.easyocr_reader with
      | some reader =>
        .ok (pyStrip (spaceJoin ((reader.readtext processed_image).map Fragment.text)))
      | none =>
        .error (("Error extracting text from image: AttributeError".toList))
    else
      .ok (pyStrip (env.image_to_string processed_image ("eng+tam".toList)))

/-- The page loop of the native phase (src/ocr_utils.py lines 103-106):
page texts whose strip is non-empty are appended to the accumulator
with a trailing newline each; a page whose `extract_text()` raises
ends the loop, the exception being swallowed by the handler on lines
107-108 while the accumulator keeps the pages appended before it. -/
def nativeLoop (t : Str) : List (Except Str Str) → Str
  | [] => t
  | (Except.error _) :: _ => t
  | (Except.ok page_text) :: rest =>
    nativeLoop (if pyStrip page_text ≠ [] then t ++ page_text ++ nl else t) rest

/-- The native text-extraction phase of `extract_text_from_pdf`
(src/ocr_utils.py lines 96-108): a `PdfReader` construction failure is
swallowed and leaves the accumulator empty; otherwise the page loop
runs, keeping whatever was accumulated before a mid-loop failure. -/
def nativeText (env : Env) (pdf_bytes : List Nat) : Str :=
  match env.pdfPages pdf_bytes with
  | .error _ => []
  | .ok pages => nativeLoop [] pages

/-- The body of the per-page loop on src/ocr_utils.py lines 116-127:
preprocess the page image, recognise it with the active engine, and
append the page text plus a newline to the accumulator.  The easyocr
branch reads `self.easyocr_reader`, which only exists when `__init__`
assigned it (otherwise Python raises an `AttributeError`). -/
def pdfStep (self : OCRProcessor) (env : Env) (t : Str) (image : Img) :
    Except Str Str :=
  let processed_image := preprocess_image env.cv image
  if self.config.OCR_ENGINE = ("easyocr".toList) then
    match self.easyocr_reader with
    | some reader =>
      Except.ok
        (t ++ spaceJoin ((reader.readtext processed_image).map Fragment.text) ++ nl)
    | none => Except.error ("AttributeError".toList)
  else
    Except.ok (t ++ env.image_to_string processed_image ("eng+tam".toList) ++ nl)

/-- The rasterise-and-OCR loop of `extract_text_from_pdf`
(src/ocr_utils.py lines 112-130): convert the PDF bytes to page images
at 200 dpi, run the per-page loop, and wrap any failure of the phase as
`Error processing PDF with OCR: ...`. -/
def ocrPdfImages (self : OCRProcessor) (env : Env) (pdf_bytes : List Nat)
    (text : Str) : Except Str Str :=
  let phase : Except Str Str :=
    match env.convert_from_bytes pdf_bytes 200 with
    | .error e => .error e
    | .ok images => List.foldlM (pdfStep self env) text images
  match phase with
  | .error e => .error (("Error processing PDF with OCR: ".toList) ++ e)
  | .ok t2 => .ok t2

/-- The branch of `extract_text_from_pdf` taken when the trimmed native
text is shorter than 50 characters: run the OCR phase on the
accumulator and strip the result; an OCR-phase failure is re-wrapped by
the outer handler (line 134). -/
def pdfOcrBranch (self : OCRProcessor) (env : Env) (pdf_bytes : List Nat)
    (text : Str) : Except Str Str :=
  match ocrPdfImages self env pdf_bytes text with
  | .error e => .error (("Error extracting text from PDF: ".toList) ++ e)
  | .ok text2 => .ok (pyStrip text2)

/-- `OCRProcessor.extract_text_from_pdf` (src/ocr_utils.py lines
93-135): native extraction, the 50-character threshold on the stripped
accumulator, the conditional OCR fallback, and the final strip. -/
def extract_text_from_pdf (self : OCRProcessor) (env : Env)
    (pdf_file : PyFile) : Except Str Str :=
  if (pyStrip (nativeText env pdf_file.content)).length < 50 then
    pdfOcrBranch self env pdf_file.content (nativeText env pdf_file.content)
  else
    .ok (pyStrip (nativeText env pdf_file.content))

/-- `OCRProcessor.process_document` (src/ocr_utils.py lines 137-146):
dispatch on the lowercased filename extension; unsupported extensions
raise `ValueError` with a message naming the lowercased filename. -/
def process_document (self : OCRProcessor) (env : Env) (file : PyFile) :
    Except Str Str :=
  let filename := pyLower file.name
  if (".pdf".toList).isSuffixOf filename then
    extract_text_from_pdf self env file
  else if (".jpg".toList).isSuffixOf filename
      || (".jpeg".toList).isSuffixOf filename
      || (".png".toList).isSuffixOf filename then
    extract_text_from_image self env file
  else
    .error (("Unsupported file type: ".toList) ++ filename)

/-- The per-page recognizer step of the PDF fallback, §4.2/§4.3 of the
spec, for a processor built by `OCRProcessor.init`: preprocess the page
and run the active engine (easyocr fragment-join, else Tesseract with
languages `eng+tam`). -/
def enginePage (cfg : Config) (mkReader : List Str → Reader) (env : Env)
    (image : Img) : Str :=
  let processed_image := preprocess_image env.cv image
  if cfg.OCR_ENGINE = ("easyocr".toList) then
    spaceJoin
      (((mkReader [("en".toList), ("ta".toList)]).readtext processed_image).map
        Fragment.text)
  else
    env.image_to_string processed_image ("eng+tam".toList)

/-- A string with no leading and no trailing whitespace. -/
def Stripped (s : Str) : Prop :=
  (∀ a, s.head? = some a → isspace a = false) ∧
  (∀ a, s.getLast? = some a → isspace a = false)

lemma head?_dropWhile_false {p : Char → Bool} :
    ∀ {l : Str} {a : Char}, (l.dropWhile p).head? = some a → p a = false := by
  intro l
  induction l with
  | nil => intro a h; simp [List.dropWhile] at h
  | cons b t ih =>
    intro a h
    by_cases hb : p b
    · exact ih (by simpa [List.dropWhile_cons, hb] using h)
    · have hba : b = a := by simpa [List.dropWhile_cons, hb] using h
      subst hba
      simpa using hb

lemma pyStrip_Stripped (s : Str) : Stripped (pyStrip s) := by
  constructor
  · intro a ha
    rw [pyStrip, List.head?_reverse] at ha
    obtain ⟨u, hu⟩ :=
      List.dropWhile_suffix (l := (s.dropWhile isspace).reverse) isspace
    have h2 : (s.dropWhile isspace).reverse.getLast? = some a := by
      rw [← hu, List.getLast?_append, ha]
      rfl
    rw [List.getLast?_reverse] at h2
    exact head?_dropWhile_false h2
  · intro a ha
    rw [pyStrip, List.getLast?_reverse] at ha
    exact head?_dropWhile_false ha

lemma extract_image_ok_shape (self : OCRProcessor) (env : Env) (file : PyFile) :
    ∀ t, extract_text_from_image self env file = .ok t → ∃ v, t = pyStrip v := by
  intro t ht
  unfold extract_text_from_image at ht
  cases hOpen : env.imageOpen file with
  | error e => rw [hOpen] at ht; simp at ht
  | ok image =>
    rw [hOpen] at ht
    dsimp only [] at ht
    split at ht
    · cases hr : self.easyocr_reader with
      | some reader => rw [hr] at ht; exact ⟨_, by simpa using ht.symm⟩
      | none => rw [hr] at ht; simp at ht
    · exact ⟨_, by simpa using ht.symm⟩

lemma extract_pdf_ok_shape (self : OCRProcessor) (env : Env) (file : PyFile) :
    ∀ t, extract_text_from_pdf self env file = .ok t → ∃ v, t = pyStrip v := by
  intro t ht
  unfold extract_text_from_pdf at ht
  split at ht
  · unfold pdfOcrBranch at ht
    cases hO : ocrPdfImages self env file.content (nativeText env file.content) with
    | error e => rw [hO] at ht; simp at ht
    | ok t2 => rw [hO] at ht; exact ⟨t2, by simpa using ht.symm⟩
  · exact ⟨_, by simpa using ht.symm⟩

lemma process_ok_shape (self : OCRProcessor) (env : Env) (file : PyFile) :
    ∀ t, process_document self env file = .ok t → ∃ v, t = pyStrip v := by
  intro t ht
  simp only [process_document] at ht
  split at ht
  · exact extract_pdf_ok_shape self env file t ht
  · split at ht
    · exact extract_image_ok_shape self env file t ht
    · simp at ht

/-- Claim C4: every text string returned successfully by
`extract_text_from_image`, `extract_text_from_pdf`, and hence
`process_document` has no leading or trailing whitespace. -/
theorem C4_outputs_trimmed (self : OCRProcessor) (env : Env) (file : PyFile) :
    (∀ t, extract_text_from_image self env file = .ok t → Stripped t) ∧
    (∀ t, extract_text_from_pdf self env file = .ok t → Stripped t) ∧
    (∀ t, process_document self env file = .ok t → Stripped t) := by
  refine ⟨fun t ht => ?_, fun t ht => ?_, fun t ht => ?_⟩
  · obtain ⟨v, rfl⟩ := extract_image_ok_shape self env file t ht
    exact pyStrip_Stripped v
  · obtain ⟨v, rfl⟩ := extract_pdf_ok_shape self env file t ht
    exact pyStrip_Stripped v
  · obtain ⟨v, rfl⟩ := process_ok_shape self env file t ht
    exact pyStrip_Stripped v

/-- A concrete configuration selecting the Tesseract default engine. -/
def cfgTess : Config := { OCR_ENGINE := "tesseract".toList }

/-- The processor built by `__init__` under the Tesseract engine. -/
def procTess : OCRProcessor := OCRProcessor.init cfgTess mkReader0

/-- A concrete image file (uppercase extension). -/
def fileJpg : PyFile := { name := "photo.JPG".toList, content := [] }

/-- A concrete environment whose Tesseract call returns text padded with
whitespace. -/
def envW : Env :=
  { cv := cv0
    imageOpen := fun _ => .ok imgZero
    pdfPages := fun _ => .ok []
    convert_from_bytes := fun _ _ => .ok []
    image_to_string := fun _ _ => " World ".toList }

theorem C4_witness : Stripped ("World".toList) :=
  (C4_outputs_trimmed procTess envW fileJpg).1 ("World".toList) (by rfl)

lemma foldlM_ok {g : Str → Img → Str} :
    ∀ (l : List Img) (a : Str) (f : Str → Img → Except Str Str),
      (∀ t i, f t i = .ok (g t i)) →
      List.foldlM f a l = .ok (List.foldl g a l) := by
  intro l
  induction l with
  | nil => intro a f hf; rfl
  | cons b t ih =>
    intro a f hf
    rw [List.foldlM_cons, hf]
    exact ih (g a b) f hf

lemma foldl_append_flatten {f : Img → Str} :
    ∀ (l : List Img) (a : Str),
      List.foldl (fun t i => t ++ f i ++ nl) a l =
        a ++ (l.map (fun i => f i ++ nl)).flatten := by
  intro l
  induction l with
  | nil => intro a; simp
  | cons b t ih =>
    intro a
    rw [List.foldl_cons, ih]
    simp [List.append_assoc]

lemma pdfStep_init (cfg : Config) (mkReader : List Str → Reader) (env : Env)
    (t : Str) (image : Img) :
    pdfStep (OCRProcessor.init cfg mkReader) env t image =
      .ok (t ++ enginePage cfg mkReader env image ++ nl) := by
  by_cases hE : cfg.OCR_ENGINE = ("easyocr".toList)
  · simp only [pdfStep, OCRProcessor.init, enginePage, if_pos hE]
  · simp only [pdfStep, OCRProcessor.init, enginePage, if_neg hE]

/-- For a processor built by `__init__`, when the trimmed native text is
below the threshold and rasterisation succeeds, the PDF resolver
appends each recognised page text plus a newline after the native
accumulator and strips the result. -/
lemma pdf_fallback_eq (cfg : Config) (mkReader : List Str → Reader) (env : Env)
    (pdf_file : PyFile) (images : List Img)
    (hlt : (pyStrip (nativeText env pdf_file.content)).length < 50)
    (hconv : env.convert_from_bytes pdf_file.content 200 = .ok images) :
    extract_text_from_pdf (OCRProcessor.init cfg mkReader) env pdf_file =
      .ok (pyStrip (nativeText env pdf_file.content ++
        (images.map
          (fun image => enginePage cfg mkReader env image ++ nl)).flatten)) := by
  simp only [extract_text_from_pdf, pdfOcrBranch, ocrPdfImages, hconv, if_pos hlt]
  rw [foldlM_ok images (nativeText env pdf_file.content)
    (pdfStep (OCRProcessor.init cfg mkReader) env)
    (pdfStep_init cfg mkReader env)]
  rw [foldl_append_flatten]

/-- Claim C1: if the trimmed native text of a PDF has length at least
50, the resolver returns that (trimmed) native text without running
OCR; if the trimmed length is below 50, the rasterise-and-OCR fallback
phase computes the result. -/
theorem C1_pdf_native_threshold (self : OCRProcessor) (env : Env)
    (pdf_file : PyFile) :
    (50 ≤ (pyStrip (nativeText env pdf_file.content)).length →
      extract_text_from_pdf self env pdf_file =
        .ok (pyStrip (nativeText env pdf_file.content))) ∧
    ((pyStrip (nativeText env pdf_file.content)).length < 50 →
      extract_text_from_pdf self env pdf_file =
        pdfOcrBranch self env pdf_file.content
          (nativeText env pdf_file.content)) := by
  constructor
  · intro h
    unfold extract_text_from_pdf
    rw [if_neg (by omega)]
  · intro h
    unfold extract_text_from_pdf
    rw [if_pos h]

/-- A native page of exactly 50 non-whitespace characters. -/
def pageA50 : Str := List.replicate 50 'A'

/-- A native page of exactly 49 non-whitespace characters. -/
def pageA49 : Str := List.replicate 49 'A'

/-- A concrete PDF file. -/
def filePdf : PyFile := { name := "scan.PDF".toList, content := [0] }

/-- An environment whose PDF has a 50-character native text layer and a
failing rasteriser. -/
def envC1a : Env :=
  { cv := cv0
    imageOpen := fun _ => .ok imgZero
    pdfPages := fun _ => .ok [Except.ok pageA50]
    convert_from_bytes := fun _ _ => .error ("boom".toList)
    image_to_string := fun _ _ => [] }

/-- The same environment with a 49-character native text layer. -/
def envC1b : Env := { envC1a with pdfPages := fun _ => .ok [Except.ok pageA49] }

theorem C1_witness :
    (50 ≤ (pyStrip (nativeText envC1a filePdf.content)).length ∧
      extract_text_from_pdf procTess envC1a filePdf =
        .ok (pyStrip (nativeText envC1a filePdf.content))) ∧
    ((pyStrip (nativeText envC1b filePdf.content)).length < 50 ∧
      extract_text_from_pdf procTess envC1b filePdf =
        pdfOcrBranch procTess envC1b filePdf.content
          (nativeText envC1b filePdf.content)) :=
  ⟨⟨by decide, (C1_pdf_native_threshold procTess envC1a filePdf).1 (by decide)⟩,
   ⟨by decide, (C1_pdf_native_threshold procTess envC1b filePdf).2 (by decide)⟩⟩

/-- An environment whose `PdfReader` constructor raises. -/
def envC8 : Env := { envC1a with pdfPages := fun _ => .error ("bad pdf".toList) }

/-- An environment whose PDF yields a 50-character first page and then a
page whose `extract_text()` raises; its rasteriser fails, so an OCR
fallback, had it run, would have produced an error result. -/
def envC8mid : Env :=
  { envC1a with
    pdfPages := fun _ =>
      .ok [Except.ok pageA50, Except.error ("page boom".toList)] }

lemma nativeLoop_append_error (e : Str) (rest : List (Except Str Str)) :
    ∀ (done : List Str) (t : Str),
      nativeLoop t (done.map Except.ok ++ Except.error e :: rest) =
        nativeLoop t (done.map Except.ok) := by
  intro done
  induction done with
  | nil => intro t; rfl
  | cons p ps ih =>
    intro t
    simp only [List.map_cons, List.cons_append, nativeLoop]
    exact ih _

/-- Claim C8 counterexample: on a PDF whose first page extracts 50
non-whitespace characters and whose second page raises inside the
native loop, the failure is swallowed but the native text is not
treated as absent: the accumulated partial text passes the threshold
and is returned, and the OCR fallback (whose rasteriser here fails, so
running it would have produced an error) never runs. -/
theorem C8_counterexample :
    envC8mid.pdfPages filePdf.content =
      .ok [Except.ok pageA50, Except.error ("page boom".toList)] ∧
    nativeText envC8mid filePdf.content = pageA50 ++ nl ∧
    nativeText envC8mid filePdf.content ≠ [] ∧
    extract_text_from_pdf procTess envC8mid filePdf = .ok pageA50 ∧
    pdfOcrBranch procTess envC8mid filePdf.content
        (nativeText envC8mid filePdf.content) =
      .error
        (("Error extracting text from PDF: Error processing PDF with OCR: boom".toList)) :=
  ⟨rfl, by rfl, by decide, by rfl, by rfl⟩

/-- Claim C8 (amended): a parsing failure in the native phase is never
propagated to the caller: the exception is swallowed, and the page
texts accumulated before the failure are kept.  A failure of the
`PdfReader` constructor (before any page) leaves the native text
absent, so the threshold check always sends control to the OCR
fallback; a mid-loop failure proceeds to the threshold check on the
kept partial text, reaching the OCR fallback only when that partial
text trims to fewer than 50 characters, and otherwise returning the
trimmed partial native text without OCR. -/
theorem C8_parse_failure_swallowed (self : OCRProcessor) (env : Env)
    (pdf_file : PyFile) :
    (∀ e, env.pdfPages pdf_file.content = .error e →
      nativeText env pdf_file.content = [] ∧
      extract_text_from_pdf self env pdf_file =
        pdfOcrBranch self env pdf_file.content []) ∧
    (∀ (done : List Str) (e : Str) (rest : List (Except Str Str)),
      env.pdfPages pdf_file.content =
        .ok (done.map Except.ok ++ Except.error e :: rest) →
      nativeText env pdf_file.content = nativeLoop [] (done.map Except.ok) ∧
      ((pyStrip (nativeLoop [] (done.map Except.ok))).length < 50 →
        extract_text_from_pdf self env pdf_file =
          pdfOcrBranch self env pdf_file.content
            (nativeLoop [] (done.map Except.ok))) ∧
      (50 ≤ (pyStrip (nativeLoop [] (done.map Except.ok))).length →
        extract_text_from_pdf self env pdf_file =
          .ok (pyStrip (nativeLoop [] (done.map Except.ok))))) := by
  constructor
  · intro e h
    have hn : nativeText env pdf_file.content = [] := by
      unfold nativeText
      rw [h]
    refine ⟨hn, ?_⟩
    unfold extract_text_from_pdf
    rw [hn]
    rw [if_pos (show (pyStrip ([] : Str)).length < 50 by decide)]
  · intro done e rest h
    have hn : nativeText env pdf_file.content =
        nativeLoop [] (done.map Except.ok) := by
      unfold nativeText
      rw [h]
      exact nativeLoop_append_error e rest done []
    refine ⟨hn, fun hlt => ?_, fun hge => ?_⟩
    · unfold extract_text_from_pdf
      rw [hn, if_pos hlt]
    · unfold extract_text_from_pdf
      rw [hn, if_neg (by omega)]

theorem C8_witness :
    (nativeText envC8 filePdf.content = [] ∧
      extract_text_from_pdf procTess envC8 filePdf =
        pdfOcrBranch procTess envC8 filePdf.content []) ∧
    (nativeText envC8mid filePdf.content =
        nativeLoop [] ([pageA50].map Except.ok) ∧
      extract_text_from_pdf procTess envC8mid filePdf =
        .ok (pyStrip (nativeLoop [] ([pageA50].map Except.ok)))) :=
  ⟨(C8_parse_failure_swallowed procTess envC8 filePdf).1
      ("bad pdf".toList) rfl,
   ⟨((C8_parse_failure_swallowed procTess envC8mid filePdf).2 [pageA50]
      ("page boom".toList) [] rfl).1,
    ((C8_parse_failure_swallowed procTess envC8mid filePdf).2 [pageA50]
      ("page boom".toList) [] rfl).2.2 (by decide)⟩⟩

/-- An environment whose PDF has the two-character native text `Hi` and
one rasterised page that Tesseract reads as `World`. -/
def envC2 : Env :=
  { cv := cv0
    imageOpen := fun _ => .ok imgZero
    pdfPages := fun _ => .ok [Except.ok ("Hi".toList)]
    convert_from_bytes := fun _ _ => .ok [imgZero]
    image_to_string := fun _ _ => "World".toList }

/-- Claim C2 counterexample: on a PDF whose trimmed native text (`Hi`)
is shorter than 50 characters, the resolver returns `Hi\nWorld` — the
insufficient native text followed by the OCR page texts — and not the
newline-joined concatenation of the per-page OCR texts alone
(`World`), because the OCR loop appends to the accumulator that
already holds the native text. -/
theorem C2_counterexample :
    extract_text_from_pdf procTess envC2 filePdf = .ok ("Hi\nWorld".toList) ∧
    pyStrip (List.intercalate nl
      [envC2.image_to_string (preprocess_image envC2.cv imgZero)
        ("eng+tam".toList)]) = "World".toList ∧
    ("Hi\nWorld".toList : Str) ≠ ("World".toList : Str) :=
  ⟨by rfl, by rfl, by decide⟩

/-- Claim C2 (amended): for every PDF whose trimmed native text has
length below 50, the string returned by the resolver is the trim of the
native accumulator followed by the per-page OCR texts, each page text
followed by a newline — the insufficient native text remains as a
prefix of the accumulator rather than the result being the OCR texts
alone. -/
theorem C2_pdf_fallback_appends (cfg : Config) (mkReader : List Str → Reader)
    (env : Env) (pdf_file : PyFile) (images : List Img)
    (hlt : (pyStrip (nativeText env pdf_file.content)).length < 50)
    (hconv : env.convert_from_bytes pdf_file.content 200 = .ok images) :
    extract_text_from_pdf (OCRProcessor.init cfg mkReader) env pdf_file =
      .ok (pyStrip (nativeText env pdf_file.content ++
        (images.map
          (fun image => enginePage cfg mkReader env image ++ nl)).flatten)) :=
  pdf_fallback_eq cfg mkReader env pdf_file images hlt hconv

theorem C2_witness :
    (pyStrip (nativeText envC2 filePdf.content)).length < 50 ∧
    extract_text_from_pdf (OCRProcessor.init cfgTess mkReader0) envC2 filePdf =
      .ok (pyStrip (nativeText envC2 filePdf.content ++
        (([imgZero].map
          (fun image => enginePage cfgTess mkReader0 envC2 image ++ nl)).flatten))) :=
  ⟨by decide,
   C2_pdf_fallback_appends cfgTess mkReader0 envC2 filePdf [imgZero]
     (by decide) (by rfl)⟩

/-- Claim C9: the neural-engine path keeps only the text component of
each easyocr fragment and joins the texts with single spaces in
detection order, both for direct images and for each page of the PDF
fallback; fragments `Hello`, `World` yield `Hello World` whatever
their coordinates and confidences. -/
theorem C9_easyocr_fragment_join (cfg : Config) (mkReader : List Str → Reader)
    (env : Env) (image_file : PyFile) (image : Img)
    (hE : cfg.OCR_ENGINE = ("easyocr".toList))
    (hOpen : env.imageOpen image_file = .ok image) :
    (∀ (b₁ b₂ : List (ℚ × ℚ)) (c₁ c₂ : ℚ),
      spaceJoin (List.map Fragment.text
        [⟨b₁, "Hello".toList, c₁⟩, ⟨b₂, "World".toList, c₂⟩]) =
        "Hello World".toList) ∧
    (extract_text_from_image (OCRProcessor.init cfg mkReader) env image_file =
      .ok (pyStrip (spaceJoin
        (((mkReader [("en".toList), ("ta".toList)]).readtext
          (preprocess_image env.cv image)).map Fragment.text)))) ∧
    (∀ (pdf_file : PyFile) (images : List Img),
      (pyStrip (nativeText env pdf_file.content)).length < 50 →
      env.convert_from_bytes pdf_file.content 200 = .ok images →
      extract_text_from_pdf (OCRProcessor.init cfg mkReader) env pdf_file =
        .ok (pyStrip (nativeText env pdf_file.content ++
          (images.map (fun image2 =>
            spaceJoin (((mkReader [("en".toList), ("ta".toList)]).readtext
              (preprocess_image env.cv image2)).map Fragment.text)
              ++ nl)).flatten))) := by
  refine ⟨fun b₁ b₂ c₁ c₂ => rfl, ?_, fun pdf_file images hlt hconv => ?_⟩
  · unfold extract_text_from_image
    rw [hOpen]
    simp only [OCRProcessor.init, if_pos hE]
  · have h := pdf_fallback_eq cfg mkReader env pdf_file images hlt hconv
    simpa only [enginePage, if_pos hE] using h

/-- A configuration selecting the easyocr engine. -/
def cfgE : Config := { OCR_ENGINE := "easyocr".toList }

/-- An easyocr reader constructor returning the fragments `Hello` and
`World` for every image. -/
def mkReaderHW : List Str → Reader := fun _ =>
  { readtext := fun _ =>
      [{ bbox := [], text := "Hello".toList, confidence := 0 },
       { bbox := [], text := "World".toList, confidence := 1 }] }

theorem C9_witness :
    extract_text_from_image (OCRProcessor.init cfgE mkReaderHW) envW fileJpg =
      .ok ("Hello World".toList) := by
  rw [(C9_easyocr_fragment_join cfgE mkReaderHW envW fileJpg imgZero
    rfl rfl).2.1]
  rfl

/-- Claim C10: for every configured engine value other than the exact
string `easyocr`, both the image path and the PDF fallback recognise
text with Tesseract using the fixed language set `eng+tam`; the
easyocr reader is constructed by `__init__` exactly when the engine is
`easyocr`. -/
theorem C10_engine_dispatch (cfg : Config) (mkReader : List Str → Reader)
    (env : Env) (file : PyFile) (image : Img) :
    (cfg.OCR_ENGINE ≠ ("easyocr".toList) →
      (OCRProcessor.init cfg mkReader).easyocr_reader = none) ∧
    (cfg.OCR_ENGINE = ("easyocr".toList) →
      (OCRProcessor.init cfg mkReader).easyocr_reader =
        some (mkReader [("en".toList), ("ta".toList)])) ∧
    (cfg.OCR_ENGINE ≠ ("easyocr".toList) →
      env.imageOpen file = .ok image →
      extract_text_from_image (OCRProcessor.init cfg mkReader) env file =
        .ok (pyStrip (env.image_to_string (preprocess_image env.cv image)
          ("eng+tam".toList)))) ∧
    (cfg.OCR_ENGINE ≠ ("easyocr".toList) →
      ∀ (images : List Img),
        (pyStrip (nativeText env file.content)).length < 50 →
        env.convert_from_bytes file.content 200 = .ok images →
        extract_text_from_pdf (OCRProcessor.init cfg mkReader) env file =
          .ok (pyStrip (nativeText env file.content ++
            (images.map (fun image2 =>
              env.image_to_string (preprocess_image env.cv image2)
                ("eng+tam".toList) ++ nl)).flatten))) := by
  refine ⟨fun hE => ?_, fun hE => ?_, fun hE hOpen => ?_,
    fun hE images hlt hconv => ?_⟩
  · simp only [OCRProcessor.init, if_neg hE]
  · simp only [OCRProcessor.init, if_pos hE]
  · unfold extract_text_from_image
    rw [hOpen]
    simp only [OCRProcessor.init, if_neg hE]
  · have h := pdf_fallback_eq cfg mkReader env file images hlt hconv
    simpa only [enginePage, if_neg hE] using h

/-- A configuration value that is neither `easyocr` nor `tesseract`. -/
def cfgFoo : Config := { OCR_ENGINE := "foo".toList }

theorem C10_witness :
    (OCRProcessor.init cfgFoo mkReader0).easyocr_reader = none ∧
    (OCRProcessor.init cfgE mkReader0).easyocr_reader =
      some (mkReader0 [("en".toList), ("ta".toList)]) ∧
    extract_text_from_image (OCRProcessor.init cfgFoo mkReader0) envW fileJpg =
      .ok (pyStrip (envW.image_to_string (preprocess_image envW.cv imgZero)
        ("eng+tam".toList))) ∧
    extract_text_from_pdf (OCRProcessor.init cfgFoo mkReader0) envC2 filePdf =
      .ok (pyStrip (nativeText envC2 filePdf.content ++
        (([imgZero].map (fun image2 =>
          envC2.image_to_string (preprocess_image envC2.cv image2)
            ("eng+tam".toList) ++ nl)).flatten))) :=
  ⟨(C10_engine_dispatch cfgFoo mkReader0 envW fileJpg imgZero).1 (by decide),
   (C10_engine_dispatch cfgE mkReader0 envW fileJpg imgZero).2.1 rfl,
   (C10_engine_dispatch cfgFoo mkReader0 envW fileJpg imgZero).2.2.1
     (by decide) rfl,
   (C10_engine_dispatch cfgFoo mkReader0 envC2 filePdf imgZero).2.2.2
     (by decide) [imgZero] (by decide) rfl⟩

/-- Whether `pat` occurs as a contiguous substring of `s` (the Python
`in` operator on strings). -/
def containsStr (s pat : Str) : Bool :=
  (List.range (s.length + 1)).any fun i =>
    decide ((s.drop i).take pat.length = pat)

/-- A file with an unsupported extension and an uppercase name. -/
def fileDocxUpper : PyFile := { name := "DOC.docx".toList, content := [] }

/-- A file with an unsupported extension and a lowercase name. -/
def fileDocx : PyFile := { name := "doc.docx".toList, content := [] }

/-- Claim C3 counterexample: for the file named `DOC.docx` the
unsupported-file-type error message is
`Unsupported file type: doc.docx` — it names the lowercased filename,
and the offending filename `DOC.docx` does not occur in the message. -/
theorem C3_counterexample :
    process_document procTess envW fileDocxUpper =
      .error ("Unsupported file type: doc.docx".toList) ∧
    containsStr ("Unsupported file type: doc.docx".toList)
      fileDocxUpper.name = false :=
  ⟨by rfl, by decide⟩

/-- Claim C3 (amended): `process_document` lowercases the filename and
dispatches on its extension: `.pdf` routes to the PDF resolver;
`.jpg`, `.jpeg`, `.png` route to direct image extraction; any other
extension fails with an unsupported-file-type error whose message
names the lowercased filename (the filename itself whenever it is
already lowercase). -/
theorem C3_dispatch_lowercased (self : OCRProcessor) (env : Env)
    (file : PyFile) :
    ((".pdf".toList).isSuffixOf (pyLower file.name) = true →
      process_document self env file = extract_text_from_pdf self env file) ∧
    ((".pdf".toList).isSuffixOf (pyLower file.name) = false →
      ((".jpg".toList).isSuffixOf (pyLower file.name)
        || (".jpeg".toList).isSuffixOf (pyLower file.name)
        || (".png".toList).isSuffixOf (pyLower file.name)) = true →
      process_document self env file = extract_text_from_image self env file) ∧
    ((".pdf".toList).isSuffixOf (pyLower file.name) = false →
      ((".jpg".toList).isSuffixOf (pyLower file.name)
        || (".jpeg".toList).isSuffixOf (pyLower file.name)
        || (".png".toList).isSuffixOf (pyLower file.name)) = false →
      process_document self env file =
        .error (("Unsupported file type: ".toList) ++ pyLower file.name)) := by
  refine ⟨fun h1 => ?_, fun h1 h2 => ?_, fun h1 h2 => ?_⟩
  · simp only [process_document, h1, if_true]
  · simp only [process_document, h1, h2, Bool.false_eq_true, if_false, if_true]
  · simp only [process_document, h1, h2, Bool.false_eq_true, if_false]

theorem C3_witness :
    (process_document procTess envC1a filePdf =
      extract_text_from_pdf procTess envC1a filePdf) ∧
    (process_document procTess envW fileJpg =
      extract_text_from_image procTess envW fileJpg) ∧
    (process_document procTess envW fileDocx =
      .error (("Unsupported file type: ".toList) ++ pyLower fileDocx.name)) :=
  ⟨(C3_dispatch_lowercased procTess envC1a filePdf).1 (by decide),
   (C3_dispatch_lowercased procTess envW fileJpg).2.1 (by decide) (by decide),
   (C3_dispatch_lowercased procTess envW fileDocx).2.2 (by decide) (by decide)⟩

end OCRModel
